import Mathlib

/-!
Shallow embedding of the agent-session orchestrator in
`computer-use-fastapi-server/app/sessions/services.py`, together with the
pydantic schema bounds from `app/sessions/schemas.py` and the session model
defaults from `app/sessions/models.py`.

Modelling decisions:
* The persistence store is a pair of the session table and the ordered list
  of bulk-insert batches (`db.bulk_insert_mappings` calls); the committed
  message sequence is the concatenation of the batches in commit order.
* The agent engine (`sampling_loop`) is modelled by the list of events it
  emits through the two callbacks, followed by its terminal outcome
  (normal return, `asyncio.CancelledError`, or any other exception).
* Image manipulation by PIL is modelled at the level of image dimensions
  and the JPEG quality applied by the last save; the `try/except` fallback
  of `resize_screenshot` is modelled by a boolean `ok` input that is false
  when PIL is missing or decoding/resizing raises.
* Python truthiness of optional strings (`api_key or settings...`,
  `if not api_key_to_use`) is modelled by `truthy`; Python `x or d` on an
  optional integer column is modelled by `pyOrNat`.
-/

namespace CUS

/-- An image payload, abstracted to its pixel dimensions and the JPEG
quality applied by the most recent re-encode (`none` = original payload,
never re-encoded by us). -/
structure Image where
  width : Nat
  height : Nat
  quality : Option Nat
deriving DecidableEq

/-- `resize_screenshot(base64_image, scale, quality)` from services.py
lines 23-51: on success, integer-scales the image when `scale > 1`
(`new_size = (width // scale, height // scale)`) and re-encodes as JPEG at
`quality`; on `ImportError` or any other exception (modelled by
`ok = false`) it returns the original payload unchanged. -/
def resize_screenshot (img : Image) (scale : Nat) (quality : Nat) (ok : Bool) : Image :=
  if ok then
    if 1 < scale then
      ⟨img.width / scale, img.height / scale, some quality⟩
    else
      ⟨img.width, img.height, some quality⟩
  else img

/-- A row of the `sessions` table (models.py lines 9-21). -/
structure SessionRec where
  id : String
  status : String
  store_screenshots : Bool
  screenshot_scale : Option Nat
  screenshot_quality : Option Nat
deriving DecidableEq

/-- The structured content payload of a persisted message record: the
initiating user message (services.py line 231), a serialized content block
(line 180), or a tool-result record with its optional screenshot field
(lines 200-221). -/
inductive StoredContent where
  | userMsg (text : String)
  | contentBlock (payload : String)
  | toolResult (tool_id : String) (output : Option String) (error : Option String)
      (screenshot : Option Image)
deriving DecidableEq

/-- The screenshot field of a stored content payload, when it is a
tool-result record carrying one. -/
def StoredContent.screenshotField : StoredContent → Option Image
  | .toolResult _ _ _ s => s
  | _ => none

/-- A row of the `messages` table as built by the run (session id plus
serialized content; timestamps are not modelled). -/
structure MessageRec where
  session_id : String
  content : StoredContent
deriving DecidableEq

/-- The persistence store: the session table and the ordered list of
bulk-insert batches committed so far. -/
structure Store where
  sessions : List SessionRec
  batches : List (List MessageRec)
deriving DecidableEq

/-- The committed message records, in commit order. -/
def Store.messages (st : Store) : List MessageRec :=
  st.batches.flatten

/-- `get_session` (services.py line 69-71): first session row with the
given id. -/
def Store.findSession (st : Store) (sid : String) : Option SessionRec :=
  st.sessions.find? (fun s => s.id = sid)

/-- `session.status = v; db.commit()`: update the status of every row with
the given id. -/
def Store.setStatus (st : Store) (sid : String) (v : String) : Store :=
  ⟨st.sessions.map (fun s => if s.id = sid then { s with status := v } else s), st.batches⟩

/-- Status of the session with the given id, if present. -/
def Store.statusOf (st : Store) (sid : String) : Option String :=
  (st.findSession sid).map SessionRec.status

/-- The `active_sessions` registry (services.py line 20), reduced to the
set of registered session ids. -/
structure Registry where
  entries : List String
deriving DecidableEq

/-- `active_sessions[session_id] = {...}` (line 302): dict assignment,
inserting the key if absent. -/
def Registry.insert (r : Registry) (sid : String) : Registry :=
  if sid ∈ r.entries then r else ⟨r.entries ++ [sid]⟩

/-- `if session_id in active_sessions: del active_sessions[session_id]`
(lines 289-290). -/
def Registry.remove (r : Registry) (sid : String) : Registry :=
  ⟨r.entries.filter (fun x => x ≠ sid)⟩

/-- Python truthiness of an optional string: `None` and `""` are falsy. -/
def truthy : Option String → Bool
  | none => false
  | some s => !(s == "")

/-- Python `a or b` on optional strings (line 151). -/
def pyOrOptStr (a b : Option String) : Option String :=
  if truthy a then a else b

/-- Python `x or d` on an optional integer column (lines 211-212):
`None` and `0` fall back to the default. -/
def pyOrNat (a : Option Nat) (d : Nat) : Nat :=
  match a with
  | none => d
  | some n => if n = 0 then d else n

/-- One event emitted by the agent engine through the callbacks:
a content block delivered to `output_callback` (with its runtime
`isinstance(content, dict)` status), or a tool result delivered to
`tool_output_callback` (with its optional `base64_image` payload and a
flag recording whether the resize succeeds). -/
inductive Event where
  | content (isDict : Bool) (payload : String)
  | toolResult (tool_id : String) (output : Option String) (error : Option String)
      (image : Option Image) (resizeOk : Bool)
deriving DecidableEq

/-- The pair of the store and the in-memory `pending_messages` buffer. -/
structure BufState where
  store : Store
  pending : List MessageRec
deriving DecidableEq

/-- `flush_messages` (lines 161-166): if the buffer is non-empty, one
bulk-insert of its contents followed by clearing it; a no-op on an empty
buffer. -/
def flush_messages (s : BufState) : BufState :=
  match s.pending with
  | [] => s
  | _ => ⟨⟨s.store.sessions, s.store.batches ++ [s.pending]⟩, []⟩

/-- `pending_messages.append(rec)` followed by the threshold check
`if len(pending_messages) >= settings.message_batch_size: flush_messages()`
(lines 186-188 and 223-225). -/
def bufferAppend (batchSize : Nat) (rec : MessageRec) (s : BufState) : BufState :=
  let s1 : BufState := ⟨s.store, s.pending ++ [rec]⟩
  if batchSize ≤ s1.pending.length then flush_messages s1 else s1

/-- The storage record built by `tool_output_callback` (lines 199-221):
tool id, textual output and error, and — only when the session's policy is
enabled and the tool result carries an image — the screenshot transformed
per the session's configured scale and quality. -/
def toolRecord (sess : SessionRec) (sid : String) (tool_id : String)
    (output error : Option String) (image : Option Image) (resizeOk : Bool) : MessageRec :=
  let screenshot : Option Image :=
    if sess.store_screenshots then
      image.map (fun img =>
        resize_screenshot img (pyOrNat sess.screenshot_scale 2)
          (pyOrNat sess.screenshot_quality 70) resizeOk)
    else none
  ⟨sid, .toolResult tool_id output error screenshot⟩

/-- The record appended to the buffer for one engine event, if any:
`output_callback` only buffers dict content (line 179);
`tool_output_callback` always buffers its record. -/
def eventRecord (sess : SessionRec) (sid : String) : Event → Option MessageRec
  | .content isDict payload =>
      if isDict then some ⟨sid, .contentBlock payload⟩ else none
  | .toolResult tid out err img ok =>
      some (toolRecord sess sid tid out err img ok)

/-- Process one engine event against the buffer: buffer its record (with
the threshold check) when there is one. -/
def processEvent (batchSize : Nat) (sess : SessionRec) (sid : String)
    (e : Event) (s : BufState) : BufState :=
  match eventRecord sess sid e with
  | some rec => bufferAppend batchSize rec s
  | none => s

/-- The buffer evolution over the whole event sequence the engine emits. -/
def runBuf (batchSize : Nat) (sess : SessionRec) (sid : String)
    (s0 : BufState) (events : List Event) : BufState :=
  events.foldl (fun acc e => processEvent batchSize sess sid e acc) s0

/-- The record for the initiating user message (lines 230-235), appended
to the buffer before the engine is invoked, without a threshold check. -/
def userRecord (sid msg : String) : MessageRec :=
  ⟨sid, .userMsg msg⟩

/-- Terminal outcome of the `sampling_loop` call: normal return,
`asyncio.CancelledError`, or any other exception. -/
inductive EngineOutcome where
  | normal
  | cancelled
  | errored
deriving DecidableEq

/-- How `run_agent` exits, as observed by its caller: early return on a
missing session (line 143), `ValueError` raised before the `try` block on
a missing credential (line 153), normal return after completion, normal
return after the swallowed engine error (lines 273-285), or the re-raised
cancellation (line 271). -/
inductive RunResult where
  | noSession
  | configError
  | completed
  | errored
  | cancelled
deriving DecidableEq

/-- `run_agent` (services.py lines 131-290). The engine is represented by
the events it emits and its terminal outcome. Note the control flow of the
source: the missing-session `return` (line 143) and the missing-credential
`raise ValueError` (line 153) both happen before the `try` block at line
168, so neither the `except` handlers nor the `finally` registry cleanup
run on those two paths. -/
def run_agent (batchSize : Nat) (session_id message : String)
    (events : List Event) (outcome : EngineOutcome)
    (api_key settingsKey : Option String)
    (st : Store) (reg : Registry) : Store × Registry × RunResult :=
  match st.findSession session_id with
  | none => (st, reg, RunResult.noSession)
  | some session =>
    let st1 := st.setStatus session_id "running"
    if truthy (pyOrOptStr api_key settingsKey) then
      let s0 : BufState := ⟨st1, [userRecord session_id message]⟩
      let s1 := runBuf batchSize session session_id s0 events
      match outcome with
      | .normal =>
          let s2 := flush_messages s1
          (s2.store.setStatus session_id "completed", reg.remove session_id,
            RunResult.completed)
      | .cancelled =>
          let s2 := flush_messages s1
          (s2.store.setStatus session_id "cancelled", reg.remove session_id,
            RunResult.cancelled)
      | .errored =>
          let s2 := flush_messages s1
          (s2.store.setStatus session_id "error", reg.remove session_id,
            RunResult.errored)
    else (st1, reg, RunResult.configError)

/-- `start_agent_task` (lines 293-303): `asyncio.create_task` schedules the
coroutine, and the registry entry is inserted synchronously before the task
body runs; the task body is `run_agent`. -/
def start_agent_task (batchSize : Nat) (session_id message : String)
    (events : List Event) (outcome : EngineOutcome)
    (api_key settingsKey : Option String)
    (st : Store) (reg : Registry) : Store × Registry × RunResult :=
  run_agent batchSize session_id message events outcome api_key settingsKey st
    (reg.insert session_id)

/-- The `SessionCreate` request schema (schemas.py lines 7-13), with its
pydantic defaults. -/
structure SessionCreate where
  store_screenshots : Bool := false
  screenshot_scale : Option Nat := some 2
  screenshot_quality : Option Nat := some 70
deriving DecidableEq

/-- Pydantic validation of a `SessionCreate` request (schemas.py lines
11-13): `screenshot_scale` has `ge=1, le=8` and `screenshot_quality` has
`ge=10, le=100`; `None` passes an `Optional[int]` field. -/
def sessionCreateValid (req : SessionCreate) : Bool :=
  (match req.screenshot_scale with
   | none => true
   | some s => decide (1 ≤ s) && decide (s ≤ 8)) &&
  (match req.screenshot_quality with
   | none => true
   | some q => decide (10 ≤ q) && decide (q ≤ 100))

/-- `create_session` (services.py lines 54-66): builds a session row with
status `"active"` and either the request's screenshot policy or the
defaults (`false`, `2`, `70`) when no payload is given, under the freshly
generated id, and adds it to the store. -/
def create_session (genId : String) (session_data : Option SessionCreate)
    (st : Store) : SessionRec × Store :=
  let sess : SessionRec :=
    { id := genId
      status := "active"
      store_screenshots :=
        match session_data with | some d => d.store_screenshots | none => false
      screenshot_scale :=
        match session_data with | some d => d.screenshot_scale | none => some 2
      screenshot_quality :=
        match session_data with | some d => d.screenshot_quality | none => some 70 }
  (sess, ⟨st.sessions ++ [sess], st.batches⟩)

/-- The full append-order sequence of records a run places in the buffer:
the initiating user message first (line 231, before the engine call), then
one record per buffered engine event, in emission order. -/
def appendedRecords (sess : SessionRec) (sid msg : String)
    (events : List Event) : List MessageRec :=
  userRecord sid msg :: events.filterMap (eventRecord sess sid)

/-- Everything a buffer state accounts for: committed records followed by
still-pending ones. -/
def allRecords (s : BufState) : List MessageRec :=
  s.store.messages ++ s.pending

/-- A concrete session row used to instantiate theorems. -/
def demoSession : SessionRec :=
  ⟨"s", "active", false, some 2, some 70⟩

/-- A concrete one-session store used to instantiate theorems. -/
def demoStore : Store :=
  ⟨[demoSession], []⟩

/-! ### Helper lemmas about the buffer and the store -/

theorem flush_allRecords (s : BufState) :
    allRecords (flush_messages s) = allRecords s := by
  unfold flush_messages allRecords Store.messages
  match h : s.pending with
  | [] => simp [h]
  | r :: rest => simp [List.flatten_append]

theorem flush_pending (s : BufState) : (flush_messages s).pending = [] := by
  unfold flush_messages
  match h : s.pending with
  | [] => exact h
  | r :: rest => simp

theorem flush_sessions (s : BufState) :
    (flush_messages s).store.sessions = s.store.sessions := by
  unfold flush_messages
  match h : s.pending with
  | [] => rfl
  | r :: rest => rfl

theorem flush_store_messages (s : BufState) :
    (flush_messages s).store.messages = allRecords s := by
  have h1 := flush_allRecords s
  have h2 := flush_pending s
  unfold allRecords at h1
  rw [h2] at h1
  simpa using h1

theorem bufferAppend_allRecords (bs : Nat) (r : MessageRec) (s : BufState) :
    allRecords (bufferAppend bs r s) = allRecords s ++ [r] := by
  unfold bufferAppend
  by_cases h : bs ≤ (s.pending ++ [r]).length
  · rw [if_pos h, flush_allRecords]
    simp [allRecords]
  · rw [if_neg h]
    simp [allRecords]

theorem bufferAppend_sessions (bs : Nat) (r : MessageRec) (s : BufState) :
    (bufferAppend bs r s).store.sessions = s.store.sessions := by
  unfold bufferAppend
  by_cases h : bs ≤ (s.pending ++ [r]).length
  · rw [if_pos h, flush_sessions]
  · rw [if_neg h]

theorem processEvent_allRecords (bs : Nat) (sess : SessionRec) (sid : String)
    (e : Event) (s : BufState) :
    allRecords (processEvent bs sess sid e s)
      = allRecords s ++ (eventRecord sess sid e).toList := by
  unfold processEvent
  match h : eventRecord sess sid e with
  | some rec => simp [bufferAppend_allRecords]
  | none => simp

theorem processEvent_sessions (bs : Nat) (sess : SessionRec) (sid : String)
    (e : Event) (s : BufState) :
    (processEvent bs sess sid e s).store.sessions = s.store.sessions := by
  unfold processEvent
  match h : eventRecord sess sid e with
  | some rec => simp [bufferAppend_sessions]
  | none => rfl

theorem runBuf_allRecords (bs : Nat) (sess : SessionRec) (sid : String)
    (events : List Event) (s0 : BufState) :
    allRecords (runBuf bs sess sid s0 events)
      = allRecords s0 ++ events.filterMap (eventRecord sess sid) := by
  induction events generalizing s0 with
  | nil => simp [runBuf]
  | cons e es ih =>
      unfold runBuf at ih ⊢
      rw [List.foldl_cons, ih]
      rw [processEvent_allRecords]
      match h : eventRecord sess sid e with
      | some rec => simp [h]
      | none => simp [h]

theorem runBuf_sessions (bs : Nat) (sess : SessionRec) (sid : String)
    (events : List Event) (s0 : BufState) :
    (runBuf bs sess sid s0 events).store.sessions = s0.store.sessions := by
  induction events generalizing s0 with
  | nil => rfl
  | cons e es ih =>
      unfold runBuf at ih ⊢
      rw [List.foldl_cons, ih, processEvent_sessions]

theorem setStatus_batches (st : Store) (sid v : String) :
    (st.setStatus sid v).batches = st.batches := rfl

theorem setStatus_messages (st : Store) (sid v : String) :
    (st.setStatus sid v).messages = st.messages := rfl

theorem findSession_setStatus (st : Store) (sid v : String) :
    (st.setStatus sid v).findSession sid
      = (st.findSession sid).map (fun s => { s with status := v }) := by
  unfold Store.setStatus Store.findSession
  induction st.sessions with
  | nil => rfl
  | cons s rest ih =>
      by_cases h : s.id = sid
      · simp [List.find?, h]
      · simp only [List.map_cons, if_neg h]
        rw [List.find?_cons_of_neg, List.find?_cons_of_neg]
        · exact ih
        · simpa using h
        · simpa using h

theorem statusOf_setStatus_of_found (st : Store) (sid v : String)
    (sess : SessionRec) (h : st.findSession sid = some sess) :
    (st.setStatus sid v).statusOf sid = some v := by
  unfold Store.statusOf
  rw [findSession_setStatus, h]
  rfl

theorem findSession_congr (st st' : Store) (sid : String)
    (h : st.sessions = st'.sessions) :
    st.findSession sid = st'.findSession sid := by
  unfold Store.findSession
  rw [h]

/-! ### Unfolding equations for `run_agent`, one per control path -/

theorem run_agent_none {batchSize : Nat} {sid msg : String} {events : List Event}
    {outcome : EngineOutcome} {api_key settingsKey : Option String}
    {st : Store} {reg : Registry}
    (hnone : st.findSession sid = none) :
    run_agent batchSize sid msg events outcome api_key settingsKey st reg
      = (st, reg, RunResult.noSession) := by
  unfold run_agent
  rw [hnone]

theorem run_agent_nokey {batchSize : Nat} {sid msg : String} {events : List Event}
    {outcome : EngineOutcome} {api_key settingsKey : Option String}
    {st : Store} {reg : Registry} {sess : SessionRec}
    (hfind : st.findSession sid = some sess)
    (hkey : truthy (pyOrOptStr api_key settingsKey) = false) :
    run_agent batchSize sid msg events outcome api_key settingsKey st reg
      = (st.setStatus sid "running", reg, RunResult.configError) := by
  unfold run_agent
  rw [hfind]
  simp [hkey]

theorem run_agent_normal {batchSize : Nat} {sid msg : String} {events : List Event}
    {api_key settingsKey : Option String} {st : Store} {reg : Registry}
    {sess : SessionRec}
    (hfind : st.findSession sid = some sess)
    (hkey : truthy (pyOrOptStr api_key settingsKey) = true) :
    run_agent batchSize sid msg events EngineOutcome.normal api_key settingsKey st reg
      = ((flush_messages (runBuf batchSize sess sid
            ⟨st.setStatus sid "running", [userRecord sid msg]⟩ events)).store.setStatus
            sid "completed",
         reg.remove sid, RunResult.completed) := by
  unfold run_agent
  rw [hfind]
  simp [hkey]

theorem run_agent_cancelled {batchSize : Nat} {sid msg : String} {events : List Event}
    {api_key settingsKey : Option String} {st : Store} {reg : Registry}
    {sess : SessionRec}
    (hfind : st.findSession sid = some sess)
    (hkey : truthy (pyOrOptStr api_key settingsKey) = true) :
    run_agent batchSize sid msg events EngineOutcome.cancelled api_key settingsKey st reg
      = ((flush_messages (runBuf batchSize sess sid
            ⟨st.setStatus sid "running", [userRecord sid msg]⟩ events)).store.setStatus
            sid "cancelled",
         reg.remove sid, RunResult.cancelled) := by
  unfold run_agent
  rw [hfind]
  simp [hkey]

theorem run_agent_errored {batchSize : Nat} {sid msg : String} {events : List Event}
    {api_key settingsKey : Option String} {st : Store} {reg : Registry}
    {sess : SessionRec}
    (hfind : st.findSession sid = some sess)
    (hkey : truthy (pyOrOptStr api_key settingsKey) = true) :
    run_agent batchSize sid msg events EngineOutcome.errored api_key settingsKey st reg
      = ((flush_messages (runBuf batchSize sess sid
            ⟨st.setStatus sid "running", [userRecord sid msg]⟩ events)).store.setStatus
            sid "error",
         reg.remove sid, RunResult.errored) := by
  unfold run_agent
  rw [hfind]
  simp [hkey]

theorem run_store_messages {batchSize : Nat} {sid msg : String}
    {events : List Event} {st : Store} {sess : SessionRec} :
    (flush_messages (runBuf batchSize sess sid
        ⟨st.setStatus sid "running", [userRecord sid msg]⟩ events)).store.messages
      = st.messages ++ appendedRecords sess sid msg events := by
  rw [flush_store_messages, runBuf_allRecords]
  simp [allRecords, setStatus_messages, appendedRecords, Store.messages,
    Store.setStatus]

theorem flush_empty_noop (s : BufState) (h : s.pending = []) :
    flush_messages s = s := by
  unfold flush_messages
  rw [h]

theorem flush_batches_of_ne (s : BufState) (h : s.pending ≠ []) :
    (flush_messages s).store.batches = s.store.batches ++ [s.pending] := by
  unfold flush_messages
  match hp : s.pending with
  | [] => exact absurd hp h
  | r :: rest => rfl

theorem bufferAppend_pending_lt (bs : Nat) (hbs : 1 ≤ bs) (r : MessageRec)
    (s : BufState) : (bufferAppend bs r s).pending.length < bs := by
  unfold bufferAppend
  by_cases h : bs ≤ (s.pending ++ [r]).length
  · rw [if_pos h, flush_pending]
    simpa using hbs
  · rw [if_neg h]
    simpa using Nat.lt_of_not_le h

theorem processEvent_pending_lt (bs : Nat) (hbs : 1 ≤ bs) (sess : SessionRec)
    (sid : String) (e : Event) (s : BufState) (hs : s.pending.length < bs) :
    (processEvent bs sess sid e s).pending.length < bs := by
  unfold processEvent
  match eventRecord sess sid e with
  | some rec => exact bufferAppend_pending_lt bs hbs rec s
  | none => exact hs

theorem runBuf_pending_lt (bs : Nat) (hbs : 1 ≤ bs) (sess : SessionRec)
    (sid : String) (events : List Event) (s0 : BufState)
    (hs : s0.pending.length < bs) :
    (runBuf bs sess sid s0 events).pending.length < bs := by
  induction events generalizing s0 with
  | nil => exact hs
  | cons e es ih =>
      unfold runBuf at ih ⊢
      rw [List.foldl_cons]
      exact ih _ (processEvent_pending_lt bs hbs sess sid e s0 hs)

theorem bufferAppend_flush_iff (bs : Nat) (r : MessageRec) (s : BufState)
    (hs : s.pending.length < bs) :
    ((bufferAppend bs r s).store.batches.length = s.store.batches.length + 1)
      ↔ s.pending.length + 1 = bs := by
  unfold bufferAppend
  by_cases h : bs ≤ (s.pending ++ [r]).length
  · rw [if_pos h, flush_batches_of_ne _ (by simp)]
    have h' : bs ≤ s.pending.length + 1 := by simpa using h
    have hgoal : ((s.store.batches ++ [s.pending ++ [r]]).length
        = s.store.batches.length + 1) := by simp
    rw [show (⟨s.store, s.pending ++ [r]⟩ : BufState).store.batches
        = s.store.batches from rfl] at hgoal ⊢
    constructor
    · intro _
      omega
    · intro _
      exact hgoal
  · rw [if_neg h]
    have h' : s.pending.length + 1 < bs := by
      have h2 := Nat.lt_of_not_le h
      simpa using h2
    rw [show (⟨s.store, s.pending ++ [r]⟩ : BufState).store.batches
        = s.store.batches from rfl]
    constructor
    · intro hh
      omega
    · intro hh
      omega

/-! ### The claims -/

/-- C1: for every run in which the engine emits any sequence of events and
finishes with any outcome, the committed message records (in commit order)
equal the store's prior records followed by the records appended to the
buffer in append order — the initiating user message first, hence before
any engine-emitted event, then one record per buffered engine event in
emission order, with order preserved across batch boundaries. -/
theorem C1_commits_equal_appends_in_order (batchSize : Nat) (sid msg : String)
    (events : List Event) (outcome : EngineOutcome)
    (api_key settingsKey : Option String) (st : Store) (reg : Registry)
    (sess : SessionRec)
    (hfind : st.findSession sid = some sess)
    (hkey : truthy (pyOrOptStr api_key settingsKey) = true) :
    (run_agent batchSize sid msg events outcome api_key settingsKey st reg).1.messages
      = st.messages
        ++ (userRecord sid msg :: events.filterMap (eventRecord sess sid)) := by
  cases outcome with
  | normal =>
      simp only [run_agent_normal hfind hkey, setStatus_messages,
        run_store_messages, appendedRecords]
  | cancelled =>
      simp only [run_agent_cancelled hfind hkey, setStatus_messages,
        run_store_messages, appendedRecords]
  | errored =>
      simp only [run_agent_errored hfind hkey, setStatus_messages,
        run_store_messages, appendedRecords]

/-- Witness for C1 at a concrete run: one-session store, one dict content
event and one tool-result event, normal completion. -/
theorem C1_witness :
    (run_agent 10 "s" "hi"
        [Event.content true "blk", Event.toolResult "t1" (some "out") none none true]
        EngineOutcome.normal (some "k") none demoStore ⟨["s"]⟩).1.messages
      = demoStore.messages
        ++ (userRecord "s" "hi"
            :: [Event.content true "blk",
                Event.toolResult "t1" (some "out") none none true].filterMap
              (eventRecord demoSession "s")) :=
  C1_commits_equal_appends_in_order 10 "s" "hi"
    [Event.content true "blk", Event.toolResult "t1" (some "out") none none true]
    EngineOutcome.normal (some "k") none demoStore ⟨["s"]⟩ demoSession
    (by decide) (by decide)

/-- C2: a threshold-checked append to the pending buffer triggers an
automatic flush (one new bulk-insert batch) exactly when the buffer length
reaches the configured batch size, provided the buffer was below the
threshold, as it always is during a run with batch size ≥ 2 (third
conjunct, covering the default batch size 10); and flushing an empty
buffer performs zero store writes (it is the identity, hence safe to
repeat). -/
theorem C2_threshold_flush_and_empty_noop (batchSize : Nat) :
    (∀ s : BufState, s.pending = [] → flush_messages s = s) ∧
    (∀ (r : MessageRec) (s : BufState), s.pending.length < batchSize →
        (((bufferAppend batchSize r s).store.batches.length
            = s.store.batches.length + 1) ↔ s.pending.length + 1 = batchSize)) ∧
    (2 ≤ batchSize →
      ∀ (sess : SessionRec) (sid msg : String) (st : Store) (events : List Event),
        (runBuf batchSize sess sid ⟨st, [userRecord sid msg]⟩ events).pending.length
          < batchSize) := by
  refine ⟨flush_empty_noop, ?_, ?_⟩
  · intro r s hs
    exact bufferAppend_flush_iff batchSize r s hs
  · intro hbs sess sid msg st events
    exact runBuf_pending_lt batchSize (by omega) sess sid events _ (by simpa using hbs)

/-- Witness for C2 at batch size 10: empty flush is the identity, an
append to a 9-element buffer triggers the flush, and a short run keeps the
buffer under the threshold. -/
theorem C2_witness :
    flush_messages ⟨⟨[], []⟩, []⟩ = ⟨⟨[], []⟩, []⟩ ∧
    (((bufferAppend 10 (userRecord "s" "m")
          ⟨⟨[], []⟩, List.replicate 9 (userRecord "s" "p")⟩).store.batches.length
        = (⟨⟨[], []⟩, List.replicate 9 (userRecord "s" "p")⟩ : BufState).store.batches.length + 1)
      ↔ (List.replicate 9 (userRecord "s" "p")).length + 1 = 10) ∧
    (runBuf 10 demoSession "s" ⟨⟨[], []⟩, [userRecord "s" "m"]⟩
        [Event.content true "a"]).pending.length < 10 :=
  ⟨(C2_threshold_flush_and_empty_noop 10).1 ⟨⟨[], []⟩, []⟩ rfl,
   (C2_threshold_flush_and_empty_noop 10).2.1 (userRecord "s" "m")
     ⟨⟨[], []⟩, List.replicate 9 (userRecord "s" "p")⟩ (by decide),
   (C2_threshold_flush_and_empty_noop 10).2.2 (by decide) demoSession "s" "m"
     ⟨[], []⟩ [Event.content true "a"]⟩

/-- C3: when the engine call is interrupted by a cancellation signal, the
run flushes the remaining buffer (all appended records are committed),
persists session status `cancelled`, and re-raises the cancellation: the
caller observes the `cancelled` outcome, not the normal-completion one. -/
theorem C3_cancellation_flushes_and_reraises (batchSize : Nat) (sid msg : String)
    (events : List Event) (api_key settingsKey : Option String)
    (st : Store) (reg : Registry) (sess : SessionRec)
    (hfind : st.findSession sid = some sess)
    (hkey : truthy (pyOrOptStr api_key settingsKey) = true) :
    ((run_agent batchSize sid msg events EngineOutcome.cancelled api_key settingsKey
        st reg).2.2 = RunResult.cancelled) ∧
    ((run_agent batchSize sid msg events EngineOutcome.cancelled api_key settingsKey
        st reg).2.2 ≠ RunResult.completed) ∧
    ((run_agent batchSize sid msg events EngineOutcome.cancelled api_key settingsKey
        st reg).1.statusOf sid = some "cancelled") ∧
    ((run_agent batchSize sid msg events EngineOutcome.cancelled api_key settingsKey
        st reg).1.messages
      = st.messages
        ++ (userRecord sid msg :: events.filterMap (eventRecord sess sid))) := by
  have heq := @run_agent_cancelled batchSize sid msg events api_key settingsKey
    st reg sess hfind hkey
  refine ⟨?_, ?_, ?_, ?_⟩
  · simp only [heq]
  · simp only [heq]
    simp
  · simp only [heq]
    have hsess : (flush_messages (runBuf batchSize sess sid
        ⟨st.setStatus sid "running", [userRecord sid msg]⟩ events)).store.findSession sid
        = some { sess with status := "running" } := by
      rw [findSession_congr _ (st.setStatus sid "running") sid
        (by rw [flush_sessions, runBuf_sessions]), findSession_setStatus, hfind]
      rfl
    exact statusOf_setStatus_of_found _ _ _ _ hsess
  · simp only [heq, setStatus_messages, run_store_messages, appendedRecords]

/-- Witness for C3 at a concrete cancelled run with one buffered event. -/
theorem C3_witness :
    ((run_agent 10 "s" "hi" [Event.content true "blk"] EngineOutcome.cancelled
        (some "k") none demoStore ⟨["s"]⟩).2.2 = RunResult.cancelled) ∧
    ((run_agent 10 "s" "hi" [Event.content true "blk"] EngineOutcome.cancelled
        (some "k") none demoStore ⟨["s"]⟩).2.2 ≠ RunResult.completed) ∧
    ((run_agent 10 "s" "hi" [Event.content true "blk"] EngineOutcome.cancelled
        (some "k") none demoStore ⟨["s"]⟩).1.statusOf "s" = some "cancelled") ∧
    ((run_agent 10 "s" "hi" [Event.content true "blk"] EngineOutcome.cancelled
        (some "k") none demoStore ⟨["s"]⟩).1.messages
      = demoStore.messages
        ++ (userRecord "s" "hi"
            :: [Event.content true "blk"].filterMap (eventRecord demoSession "s"))) :=
  C3_cancellation_flushes_and_reraises 10 "s" "hi" [Event.content true "blk"]
    (some "k") none demoStore ⟨["s"]⟩ demoSession (by decide) (by decide)

theorem not_mem_remove (reg : Registry) (sid : String) :
    sid ∉ (reg.remove sid).entries := by
  unfold Registry.remove
  simp

theorem mem_insert (reg : Registry) (sid : String) :
    sid ∈ (reg.insert sid).entries := by
  unfold Registry.insert
  by_cases h : sid ∈ reg.entries
  · rw [if_pos h]
    exact h
  · rw [if_neg h]
    simp

/-- C4 counterexample: the claim says the session id is removed from the
Registry on every exit path, including the missing-session early abort.
But `start_agent_task` inserts the registry entry before the task body
runs, and the missing-session `return` at services.py line 143 happens
before the `try` block, so the `finally` cleanup at lines 287-290 never
runs: after the run has exited with `noSession`, the entry is still there. -/
theorem C4_counterexample :
    ((start_agent_task 10 "s" "m" [] EngineOutcome.normal (some "k") none
        ⟨[], []⟩ ⟨[]⟩).2.2 = RunResult.noSession) ∧
    ((start_agent_task 10 "s" "m" [] EngineOutcome.normal (some "k") none
        ⟨[], []⟩ ⟨[]⟩).2.1.entries = ["s"]) := by
  decide

/-- C4 amended: the session id is removed from the Registry on the paths
that reach the `try` block — normal completion, engine error, and
cancellation; on the missing-session and missing-credential early aborts
the run leaves the Registry untouched, so the entry created at start time
persists. -/
theorem C4_registry_cleanup_paths (batchSize : Nat) (sid msg : String)
    (events : List Event) (outcome : EngineOutcome)
    (api_key settingsKey : Option String) (st : Store) (reg : Registry) :
    ((∃ sess, st.findSession sid = some sess) →
      truthy (pyOrOptStr api_key settingsKey) = true →
      sid ∉ (run_agent batchSize sid msg events outcome api_key settingsKey
        st reg).2.1.entries) ∧
    (st.findSession sid = none →
      (run_agent batchSize sid msg events outcome api_key settingsKey st reg).2.1
        = reg) ∧
    ((∃ sess, st.findSession sid = some sess) →
      truthy (pyOrOptStr api_key settingsKey) = false →
      (run_agent batchSize sid msg events outcome api_key settingsKey st reg).2.1
        = reg) := by
  refine ⟨?_, ?_, ?_⟩
  · rintro ⟨sess, hfind⟩ hkey
    cases outcome with
    | normal =>
        simp only [run_agent_normal hfind hkey]
        exact not_mem_remove reg sid
    | cancelled =>
        simp only [run_agent_cancelled hfind hkey]
        exact not_mem_remove reg sid
    | errored =>
        simp only [run_agent_errored hfind hkey]
        exact not_mem_remove reg sid
  · intro hnone
    simp only [run_agent_none hnone]
  · rintro ⟨sess, hfind⟩ hkey
    simp only [run_agent_nokey hfind hkey]

/-- Witness for C4 (amended): concrete instances of the three conjuncts. -/
theorem C4_witness :
    ("s" ∉ (run_agent 10 "s" "m" [] EngineOutcome.normal (some "k") none demoStore
        ⟨["s"]⟩).2.1.entries) ∧
    ((run_agent 10 "x" "m" [] EngineOutcome.normal (some "k") none demoStore
        ⟨["x"]⟩).2.1 = ⟨["x"]⟩) ∧
    ((run_agent 10 "s" "m" [] EngineOutcome.normal none none demoStore
        ⟨["s"]⟩).2.1 = ⟨["s"]⟩) :=
  ⟨(C4_registry_cleanup_paths 10 "s" "m" [] EngineOutcome.normal (some "k") none
      demoStore ⟨["s"]⟩).1 ⟨demoSession, by decide⟩ (by decide),
   (C4_registry_cleanup_paths 10 "x" "m" [] EngineOutcome.normal (some "k") none
      demoStore ⟨["x"]⟩).2.1 (by decide),
   (C4_registry_cleanup_paths 10 "s" "m" [] EngineOutcome.normal none none
      demoStore ⟨["s"]⟩).2.2 ⟨demoSession, by decide⟩ (by decide)⟩

/-- C5 counterexample: with a session present but no credential (neither
override nor configured key), the run raises the configuration error from
services.py line 153 — which sits before the `try` block — so the
`except Exception` handler at line 273 never runs and the persisted status
stays `"running"` (set at line 145), not `"error"` as the claim says. -/
theorem C5_counterexample :
    ((run_agent 10 "s" "m" [] EngineOutcome.normal none none demoStore
        ⟨["s"]⟩).2.2 = RunResult.configError) ∧
    ((run_agent 10 "s" "m" [] EngineOutcome.normal none none demoStore
        ⟨["s"]⟩).1.statusOf "s" = some "running") ∧
    ((run_agent 10 "s" "m" [] EngineOutcome.normal none none demoStore
        ⟨["s"]⟩).1.statusOf "s" ≠ some "error") := by
  decide

/-- C5 amended: if no API credential is available, the run raises the
configuration error before the agent engine is invoked (its result does
not depend on the events or the engine outcome, and no message record is
written), but the session's persisted status remains `"running"` — not
`"error"` — and the Registry is left untouched. -/
theorem C5_missing_credential (batchSize : Nat) (sid msg : String)
    (events : List Event) (outcome : EngineOutcome)
    (api_key settingsKey : Option String) (st : Store) (reg : Registry)
    (sess : SessionRec)
    (hfind : st.findSession sid = some sess)
    (hkey : truthy (pyOrOptStr api_key settingsKey) = false) :
    ((run_agent batchSize sid msg events outcome api_key settingsKey st reg).2.2
        = RunResult.configError) ∧
    ((run_agent batchSize sid msg events outcome api_key settingsKey st reg).1.statusOf
        sid = some "running") ∧
    ((run_agent batchSize sid msg events outcome api_key settingsKey st reg).1.messages
        = st.messages) ∧
    ((run_agent batchSize sid msg events outcome api_key settingsKey st reg).2.1
        = reg) ∧
    (run_agent batchSize sid msg events outcome api_key settingsKey st reg
        = run_agent batchSize sid msg [] EngineOutcome.normal api_key settingsKey
            st reg) := by
  have heq := @run_agent_nokey batchSize sid msg events outcome api_key
    settingsKey st reg sess hfind hkey
  refine ⟨?_, ?_, ?_, ?_, ?_⟩
  · simp only [heq]
  · simp only [heq]
    exact statusOf_setStatus_of_found st sid "running" sess hfind
  · simp only [heq, setStatus_messages]
  · simp only [heq]
  · rw [heq, @run_agent_nokey batchSize sid msg [] EngineOutcome.normal api_key
      settingsKey st reg sess hfind hkey]

/-- Witness for C5 (amended) at a concrete credential-less run. -/
theorem C5_witness :
    ((run_agent 10 "s" "m" [Event.content true "blk"] EngineOutcome.normal none
        (some "") demoStore ⟨["s"]⟩).2.2 = RunResult.configError) ∧
    ((run_agent 10 "s" "m" [Event.content true "blk"] EngineOutcome.normal none
        (some "") demoStore ⟨["s"]⟩).1.statusOf "s" = some "running") ∧
    ((run_agent 10 "s" "m" [Event.content true "blk"] EngineOutcome.normal none
        (some "") demoStore ⟨["s"]⟩).1.messages = demoStore.messages) ∧
    ((run_agent 10 "s" "m" [Event.content true "blk"] EngineOutcome.normal none
        (some "") demoStore ⟨["s"]⟩).2.1 = ⟨["s"]⟩) ∧
    (run_agent 10 "s" "m" [Event.content true "blk"] EngineOutcome.normal none
        (some "") demoStore ⟨["s"]⟩
      = run_agent 10 "s" "m" [] EngineOutcome.normal none (some "") demoStore
          ⟨["s"]⟩) :=
  C5_missing_credential 10 "s" "m" [Event.content true "blk"] EngineOutcome.normal
    none (some "") demoStore ⟨["s"]⟩ demoSession (by decide) (by decide)

/-- C6 counterexample: the claim says starting a run for a non-existent
session id creates zero registry entries; but `start_agent_task` inserts
the entry (services.py line 302) before the task body observes the missing
session, and the early `return` never removes it. -/
theorem C6_counterexample :
    ((start_agent_task 10 "t" "m" [] EngineOutcome.normal (some "k") none
        ⟨[], []⟩ ⟨[]⟩).2.1.entries = ["t"]) ∧
    ((start_agent_task 10 "t" "m" [] EngineOutcome.normal (some "k") none
        ⟨[], []⟩ ⟨[]⟩).2.1.entries ≠ []) := by
  decide

/-- C6 amended: starting a run for a session id absent from the store
performs zero store mutations and the run itself aborts silently before
any state change; but the supervisor's start has already created a
registry entry for the id, and the abort leaves that entry in place. -/
theorem C6_missing_session (batchSize : Nat) (sid msg : String)
    (events : List Event) (outcome : EngineOutcome)
    (api_key settingsKey : Option String) (st : Store) (reg : Registry)
    (hnone : st.findSession sid = none) :
    ((start_agent_task batchSize sid msg events outcome api_key settingsKey st
        reg).1 = st) ∧
    ((start_agent_task batchSize sid msg events outcome api_key settingsKey st
        reg).2.1 = reg.insert sid) ∧
    (sid ∈ (start_agent_task batchSize sid msg events outcome api_key settingsKey
        st reg).2.1.entries) ∧
    ((start_agent_task batchSize sid msg events outcome api_key settingsKey st
        reg).2.2 = RunResult.noSession) := by
  unfold start_agent_task
  simp only [run_agent_none hnone]
  exact ⟨trivial, trivial, mem_insert reg sid, trivial⟩

/-- Witness for C6 (amended) at a concrete missing-session start. -/
theorem C6_witness :
    ((start_agent_task 10 "u" "m" [] EngineOutcome.normal (some "k") none
        demoStore ⟨[]⟩).1 = demoStore) ∧
    ((start_agent_task 10 "u" "m" [] EngineOutcome.normal (some "k") none
        demoStore ⟨[]⟩).2.1 = Registry.insert ⟨[]⟩ "u") ∧
    ("u" ∈ (start_agent_task 10 "u" "m" [] EngineOutcome.normal (some "k") none
        demoStore ⟨[]⟩).2.1.entries) ∧
    ((start_agent_task 10 "u" "m" [] EngineOutcome.normal (some "k") none
        demoStore ⟨[]⟩).2.2 = RunResult.noSession) :=
  C6_missing_session 10 "u" "m" [] EngineOutcome.normal (some "k") none demoStore
    ⟨[]⟩ (by decide)

/-- C7: the record persisted for a tool-result event carries a screenshot
field exactly when the session's screenshot policy is enabled and the tool
result carries an image payload; when present it is the image transformed
by `resize_screenshot` at the session's configured scale and quality (so
for scale 2 a 200×100 image becomes 100×50, re-encoded at the configured
quality), and a transform failure falls back to the original payload. -/
theorem C7_screenshot_field_policy :
    (∀ (sess : SessionRec) (sid tid : String) (out err : Option String)
        (img : Option Image) (ok : Bool),
      ((toolRecord sess sid tid out err img ok).content.screenshotField).isSome
        ↔ (sess.store_screenshots = true ∧ img.isSome = true)) ∧
    (∀ (sess : SessionRec) (sid tid : String) (out err : Option String)
        (i : Image) (ok : Bool),
      sess.store_screenshots = true →
      (toolRecord sess sid tid out err (some i) ok).content.screenshotField
        = some (resize_screenshot i (pyOrNat sess.screenshot_scale 2)
            (pyOrNat sess.screenshot_quality 70) ok)) ∧
    (∀ q : Nat,
      resize_screenshot ⟨200, 100, none⟩ 2 q true = ⟨100, 50, some q⟩) ∧
    (∀ (img : Image) (scale q : Nat),
      resize_screenshot img scale q false = img) := by
  refine ⟨?_, ?_, ?_, ?_⟩
  · intro sess sid tid out err img ok
    unfold toolRecord StoredContent.screenshotField
    by_cases h : sess.store_screenshots
    · simp [h]
    · simp [h]
  · intro sess sid tid out err i ok h
    simp [toolRecord, h, StoredContent.screenshotField]
  · intro q
    rfl
  · intro img scale q
    rfl

/-- Witness for C7: a 200×100 image under an enabled policy with scale 2
and quality 70 is stored transformed; the policy-off and policy-on cases
of the iff at a concrete record. -/
theorem C7_witness :
    ((toolRecord ⟨"s", "running", true, some 2, some 70⟩ "s" "t" (some "o") none
        (some ⟨200, 100, none⟩) true).content.screenshotField
      = some (resize_screenshot ⟨200, 100, none⟩ (pyOrNat (some 2) 2)
          (pyOrNat (some 70) 70) true)) ∧
    (((toolRecord ⟨"s", "running", false, some 2, some 70⟩ "s" "t" (some "o") none
        (some ⟨200, 100, none⟩) true).content.screenshotField).isSome
      ↔ (false = true ∧ (some (⟨200, 100, none⟩ : Image)).isSome = true)) :=
  ⟨C7_screenshot_field_policy.2.1 ⟨"s", "running", true, some 2, some 70⟩ "s" "t"
      (some "o") none ⟨200, 100, none⟩ true rfl,
   C7_screenshot_field_policy.1 ⟨"s", "running", false, some 2, some 70⟩ "s" "t"
      (some "o") none (some ⟨200, 100, none⟩) true⟩

/-- C8 counterexample: with batch size 10 and exactly 10 dict content
events, the run performs two bulk inserts, not one: the initiating user
message shares the buffer (appended at services.py line 231 without a
threshold check), so the threshold fires at the 9th content event with a
batch of 10 records, and the terminal flush inserts the 10th event — one
additional record, not zero as the claim states. -/
theorem C8_counterexample :
    ((run_agent 10 "s" "m" (List.replicate 10 (Event.content true "e"))
        EngineOutcome.normal (some "k") none demoStore ⟨["s"]⟩).1.batches.map
        List.length) = [10, 1] := by
  decide

/-- C8 amended: with batch size 10, a run that emits exactly 10 dict
content events performs exactly two bulk-insert calls: a
threshold-triggered one whose batch is the initiating user-message record
followed by the first 9 content records, and the terminal flush whose
batch is the single 10th content record. -/
theorem C8_two_bulk_inserts (sid msg : String)
    (p1 p2 p3 p4 p5 p6 p7 p8 p9 p10 : String)
    (api_key settingsKey : Option String) (st : Store) (reg : Registry)
    (sess : SessionRec)
    (hfind : st.findSession sid = some sess)
    (hkey : truthy (pyOrOptStr api_key settingsKey) = true) :
    (run_agent 10 sid msg
        [Event.content true p1, Event.content true p2, Event.content true p3,
         Event.content true p4, Event.content true p5, Event.content true p6,
         Event.content true p7, Event.content true p8, Event.content true p9,
         Event.content true p10]
        EngineOutcome.normal api_key settingsKey st reg).1.batches
      = st.batches
        ++ [[userRecord sid msg,
             ⟨sid, StoredContent.contentBlock p1⟩,
             ⟨sid, StoredContent.contentBlock p2⟩,
             ⟨sid, StoredContent.contentBlock p3⟩,
             ⟨sid, StoredContent.contentBlock p4⟩,
             ⟨sid, StoredContent.contentBlock p5⟩,
             ⟨sid, StoredContent.contentBlock p6⟩,
             ⟨sid, StoredContent.contentBlock p7⟩,
             ⟨sid, StoredContent.contentBlock p8⟩,
             ⟨sid, StoredContent.contentBlock p9⟩]]
        ++ [[⟨sid, StoredContent.contentBlock p10⟩]] := by
  rw [run_agent_normal hfind hkey]
  simp only [runBuf, List.foldl_cons, List.foldl_nil, processEvent, eventRecord,
    bufferAppend, flush_messages, userRecord, List.cons_append, List.nil_append,
    List.length_cons, List.length_nil, if_true, Store.setStatus]
  norm_num

/-- Witness for C8 (amended) at fully concrete inputs. -/
theorem C8_witness :
    (run_agent 10 "s" "m"
        [Event.content true "a1", Event.content true "a2", Event.content true "a3",
         Event.content true "a4", Event.content true "a5", Event.content true "a6",
         Event.content true "a7", Event.content true "a8", Event.content true "a9",
         Event.content true "a10"]
        EngineOutcome.normal (some "k") none demoStore ⟨["s"]⟩).1.batches
      = demoStore.batches
        ++ [[userRecord "s" "m",
             ⟨"s", StoredContent.contentBlock "a1"⟩,
             ⟨"s", StoredContent.contentBlock "a2"⟩,
             ⟨"s", StoredContent.contentBlock "a3"⟩,
             ⟨"s", StoredContent.contentBlock "a4"⟩,
             ⟨"s", StoredContent.contentBlock "a5"⟩,
             ⟨"s", StoredContent.contentBlock "a6"⟩,
             ⟨"s", StoredContent.contentBlock "a7"⟩,
             ⟨"s", StoredContent.contentBlock "a8"⟩,
             ⟨"s", StoredContent.contentBlock "a9"⟩]]
        ++ [[⟨"s", StoredContent.contentBlock "a10"⟩]] :=
  C8_two_bulk_inserts "s" "m" "a1" "a2" "a3" "a4" "a5" "a6" "a7" "a8" "a9" "a10"
    (some "k") none demoStore ⟨["s"]⟩ demoSession (by decide) (by decide)

/-- C9 counterexample: the claim says any integer scale ≥ 1 and any
quality in 1..100 are accepted, but the schema bounds are `ge=1, le=8` for
the scale and `ge=10, le=100` for the quality: scale 9 (≥ 1) and quality 5
(in 1..100) are both rejected by validation. -/
theorem C9_counterexample :
    (1 ≤ 9 ∧ sessionCreateValid ⟨false, some 9, some 70⟩ = false) ∧
    (1 ≤ 5 ∧ 5 ≤ 100 ∧ sessionCreateValid ⟨false, some 2, some 5⟩ = false) := by
  decide

/-- C9 amended: a session-creation request is accepted for every integer
scale in 1..8 and every integer quality in 10..100, and the created
session stores exactly the requested policy values. -/
theorem C9_schema_bounds (b : Bool) (s q : Nat) (genId : String) (st : Store)
    (hs1 : 1 ≤ s) (hs8 : s ≤ 8) (hq1 : 10 ≤ q) (hq2 : q ≤ 100) :
    sessionCreateValid ⟨b, some s, some q⟩ = true ∧
    (create_session genId (some ⟨b, some s, some q⟩) st).1.store_screenshots = b ∧
    (create_session genId (some ⟨b, some s, some q⟩) st).1.screenshot_scale
      = some s ∧
    (create_session genId (some ⟨b, some s, some q⟩) st).1.screenshot_quality
      = some q ∧
    (create_session genId (some ⟨b, some s, some q⟩) st).2.sessions
      = st.sessions ++ [(create_session genId (some ⟨b, some s, some q⟩) st).1] := by
  refine ⟨?_, rfl, rfl, rfl, rfl⟩
  simp only [sessionCreateValid, Bool.and_eq_true, decide_eq_true_eq]
  omega

/-- Witness for C9 (amended) at scale 3, quality 50. -/
theorem C9_witness :
    sessionCreateValid ⟨true, some 3, some 50⟩ = true ∧
    (create_session "g" (some ⟨true, some 3, some 50⟩) ⟨[], []⟩).1.store_screenshots
      = true ∧
    (create_session "g" (some ⟨true, some 3, some 50⟩) ⟨[], []⟩).1.screenshot_scale
      = some 3 ∧
    (create_session "g" (some ⟨true, some 3, some 50⟩) ⟨[], []⟩).1.screenshot_quality
      = some 50 ∧
    (create_session "g" (some ⟨true, some 3, some 50⟩) ⟨[], []⟩).2.sessions
      = ([] : List SessionRec)
        ++ [(create_session "g" (some ⟨true, some 3, some 50⟩) ⟨[], []⟩).1] :=
  C9_schema_bounds true 3 50 "g" ⟨[], []⟩ (by decide) (by decide) (by decide)
    (by decide)

/-- C10: creating a session with no configuration payload yields a session
with status `"active"`, `store_screenshots = false`, scale 2 and quality
70, under the freshly generated id; when that id is fresh for the store,
the new session is the unique one stored under it. -/
theorem C10_default_creation (genId : String) (st : Store)
    (hfresh : ∀ s ∈ st.sessions, s.id ≠ genId) :
    ((create_session genId none st).1.status = "active") ∧
    ((create_session genId none st).1.store_screenshots = false) ∧
    ((create_session genId none st).1.screenshot_scale = some 2) ∧
    ((create_session genId none st).1.screenshot_quality = some 70) ∧
    ((create_session genId none st).1.id = genId) ∧
    ((create_session genId none st).2.sessions.filter (fun s => s.id = genId)
      = [(create_session genId none st).1]) := by
  refine ⟨rfl, rfl, rfl, rfl, rfl, ?_⟩
  have h1 : st.sessions.filter (fun s => decide (s.id = genId)) = [] := by
    rw [List.filter_eq_nil_iff]
    intro a ha
    simpa using hfresh a ha
  simp [create_session, List.filter_append, h1]

/-- Witness for C10 on an empty store with a concrete generated id. -/
theorem C10_witness :
    ((create_session "g0" none ⟨[], []⟩).1.status = "active") ∧
    ((create_session "g0" none ⟨[], []⟩).1.store_screenshots = false) ∧
    ((create_session "g0" none ⟨[], []⟩).1.screenshot_scale = some 2) ∧
    ((create_session "g0" none ⟨[], []⟩).1.screenshot_quality = some 70) ∧
    ((create_session "g0" none ⟨[], []⟩).1.id = "g0") ∧
    ((create_session "g0" none ⟨[], []⟩).2.sessions.filter
        (fun s => s.id = "g0") = [(create_session "g0" none ⟨[], []⟩).1]) :=
  C10_default_creation "g0" ⟨[], []⟩ (by simp)

end CUS
